import Mathlib

/-!
Shallow embedding of `src/main.rs` of learn-rust-graphql (revision with
content-hash addressing).

The program is a GraphQL service over a file-backed repository storing a
single kind of record, `Contact { id, first_name, last_name }`.

Modelling choices:
* `Contact` (Rust struct with three `&str` fields) becomes a structure of
  three `String`s.
* The storage hash is Rust's `std::collections::hash_map::DefaultHasher`,
  i.e. SipHash-1-3 with both keys zero, applied to the byte stream produced
  by the derived `Hash` impl: for each field in declaration order, the UTF-8
  bytes of the string followed by a `0xff` terminator byte.  The algorithm
  is embedded in full over `Nat` with explicit reduction modulo `2^64`.
* `format!("{}", hash)` (decimal rendering of a `u64`) becomes `decRepr`.
* `serde_json` documents are modelled at the level of the JSON document
  tree (`Json`); a file holds `Option Json`, where `none` stands for file
  content that does not parse as a JSON document (e.g. a truncated file).
  `serde_json::to_writer` for `Contact` always produces the three-field
  object in declaration order; the derived `Deserialize` accepts the fields
  of an object in any order, ignores unknown fields, and fails on a
  missing field, a duplicated field, or a non-string value.
* The filesystem and its failure modes are a `World`: an association list
  of files (most recent write first) plus two oracles saying at which paths
  `File::create` succeeds and at which paths `serde_json::to_writer`
  succeeds in writing.  The oracles are fixed functions, so repeated calls
  behave deterministically, matching a quiescent filesystem.
* Rust `Result` plus the possibility of a panic (`.expect`) becomes
  `RepoResult`: `ok`, `err` (recoverable, the `?` operator propagates it)
  and `panic` (aborts the handling path).  `format!("{}", e)` on a boxed
  error is modelled as the identity on the carried message string.
-/

/-- Contact record: `models::Contact` from the source. -/
structure Contact where
  id : String
  first_name : String
  last_name : String
deriving DecidableEq, Repr

/-- Reduction modulo `2^64`, the wrap-around of `u64` arithmetic. -/
def wrap64 (x : Nat) : Nat := x % 18446744073709551616

/-- Left rotation of a 64-bit word by `n` bits. -/
def rotl64 (x n : Nat) : Nat := wrap64 (x <<< n) ||| (x >>> (64 - n))

/-- State of the SipHash permutation: four 64-bit words. -/
structure SipState where
  v0 : Nat
  v1 : Nat
  v2 : Nat
  v3 : Nat

/-- One SipRound of the SipHash permutation. -/
def sipRound (s : SipState) : SipState :=
  let v0 := wrap64 (s.v0 + s.v1)
  let v1 := rotl64 s.v1 13
  let v1 := v1 ^^^ v0
  let v0 := rotl64 v0 32
  let v2 := wrap64 (s.v2 + s.v3)
  let v3 := rotl64 s.v3 16
  let v3 := v3 ^^^ v2
  let v0 := wrap64 (v0 + v3)
  let v3 := rotl64 v3 21
  let v3 := v3 ^^^ v0
  let v2 := wrap64 (v2 + v1)
  let v1 := rotl64 v1 17
  let v1 := v1 ^^^ v2
  let v2 := rotl64 v2 32
  ⟨v0, v1, v2, v3⟩

/-- Little-endian value of a list of bytes (first byte least significant). -/
def le64 (bs : List Nat) : Nat := bs.foldr (fun b acc => b % 256 + 256 * acc) 0

/-- Finalisation of SipHash: the last (possibly empty) tail of fewer than
8 bytes forms the final block carrying `len % 256` in the top byte, then
`v2 ^= 0xff` and three SipRounds; the digest is `v0 ^ v1 ^ v2 ^ v3`. -/
def sipFinish (s : SipState) (tail : List Nat) (len : Nat) : Nat :=
  let b := ((len % 256) <<< 56) ||| le64 tail
  let t := sipRound { s with v3 := s.v3 ^^^ b }
  let t := { t with v0 := t.v0 ^^^ b }
  let t := { t with v2 := t.v2 ^^^ 255 }
  let t := sipRound (sipRound (sipRound t))
  t.v0 ^^^ t.v1 ^^^ t.v2 ^^^ t.v3

/-- Compression loop of SipHash-1-3: one SipRound per 8-byte little-endian
message block, then the finalisation on the remaining tail. -/
def sipBlocks (s : SipState) : List Nat → Nat → Nat
  | b0 :: b1 :: b2 :: b3 :: b4 :: b5 :: b6 :: b7 :: rest, len =>
    let m := le64 [b0, b1, b2, b3, b4, b5, b6, b7]
    let t := sipRound { s with v3 := s.v3 ^^^ m }
    sipBlocks { t with v0 := t.v0 ^^^ m } rest len
  | tail, len => sipFinish s tail len

/-- SipHash-1-3 with key `(0, 0)`: the algorithm behind
`std::collections::hash_map::DefaultHasher`.  The four constants are the
standard SipHash initial words (xor with a zero key leaves them as is). -/
def siphash13 (bs : List Nat) : Nat :=
  sipBlocks ⟨0x736f6d6570736575, 0x646f72616e646f6d,
             0x6c7967656e657261, 0x7465646279746573⟩ bs bs.length

/-- UTF-8 encoding of one character, as the list of its bytes. -/
def utf8Bytes (c : Char) : List Nat :=
  let n := c.toNat
  if n < 0x80 then [n]
  else if n < 0x800 then
    [0xC0 ||| (n >>> 6), 0x80 ||| (n &&& 0x3F)]
  else if n < 0x10000 then
    [0xE0 ||| (n >>> 12), 0x80 ||| ((n >>> 6) &&& 0x3F), 0x80 ||| (n &&& 0x3F)]
  else
    [0xF0 ||| (n >>> 18), 0x80 ||| ((n >>> 12) &&& 0x3F),
     0x80 ||| ((n >>> 6) &&& 0x3F), 0x80 ||| (n &&& 0x3F)]

/-- Byte stream contributed by hashing one `&str` field: `Hash for str`
writes the UTF-8 bytes of the string followed by a single `0xff` byte. -/
def strHashBytes (s : String) : List Nat :=
  s.data.foldr (fun c acc => utf8Bytes c ++ acc) [0xff]

/-- Content hash of a record, as computed in `FileRepository::set`:
`DefaultHasher` fed by the derived `Hash` impl of `Contact`, which hashes
`id`, `first_name` and `last_name` in declaration order. -/
def contactHash (c : Contact) : Nat :=
  siphash13 (strHashBytes c.id ++ strHashBytes c.first_name ++
    strHashBytes c.last_name)

/-- Decimal digits, most significant first, computed with a fuel counter
(any fuel at least the argument suffices, see `decDigitsAux_fuel`). -/
def decDigitsAux : Nat → Nat → List Char
  | 0, _ => []
  | fuel + 1, n =>
    if n = 0 then []
    else decDigitsAux fuel (n / 10) ++ [Char.ofNat (48 + n % 10)]

/-- Decimal digits of `n`, most significant first (`[]` for `0`). -/
def decDigits (n : Nat) : List Char := decDigitsAux n n

/-- Decimal rendering of a natural number: `format!("{}", hash)` for the
`u64` hash value. -/
def decRepr (n : Nat) : String :=
  if n = 0 then "0" else String.mk (decDigits n)

/-- JSON document tree, the level at which serde_json documents are
modelled. -/
inductive Json where
  | null : Json
  | bool (b : Bool) : Json
  | num (n : Int) : Json
  | str (s : String) : Json
  | obj (fields : List (String × Json)) : Json

/-- Serialisation of a `Contact` by the derived `Serialize` impl: a JSON
object with the three fields in declaration order.  `serde_json::to_writer`
never fails at the serialisation level for this type (any failure of the
call is an I/O failure of the underlying writer, modelled separately), so
the result is always `some`. -/
def serializeContact (c : Contact) : Option Json :=
  some (Json.obj [("id", Json.str c.id), ("first_name", Json.str c.first_name),
    ("last_name", Json.str c.last_name)])

/-- Field access of the derived `Deserialize` impl: the unique binding of
`key` among the object fields; a duplicated field is an error (`none`), as
in serde. -/
def lookupUnique (fields : List (String × Json)) (key : String) : Option Json :=
  match fields.filter (fun f => f.1 == key) with
  | [f] => some f.2
  | _ => none

/-- Expects a JSON string, as the derived `Deserialize` does for a `&str`
field. -/
def asString : Json → Option String
  | Json.str s => some s
  | _ => none

/-- Deserialisation of a `Contact` by the derived `Deserialize` impl:
requires a JSON object carrying each of the three fields exactly once with
a string value; unknown fields are ignored. -/
def decodeContact (j : Json) : Option Contact :=
  match j with
  | Json.obj fields =>
    match lookupUnique fields "id", lookupUnique fields "first_name",
          lookupUnique fields "last_name" with
    | some ji, some jf, some jl =>
      match asString ji, asString jf, asString jl with
      | some i, some f, some l => some ⟨i, f, l⟩
      | _, _, _ => none
    | _, _, _ => none
  | _ => none

/-- Deserialisation of raw file content (`serde_json::from_str`): `none`
file content stands for text that does not parse as a JSON document. -/
def decodeFile : Option Json → Option Contact
  | none => none
  | some j => decodeContact j

/-- The filesystem and its failure modes, as seen by the repository.
`files` is an association list from path to file content, most recent
write first; `createOk p` says whether `File::create(p)` succeeds;
`writeOk p` says whether `serde_json::to_writer` into the file at `p`
succeeds. -/
structure World where
  files : List (String × Option Json)
  createOk : String → Bool
  writeOk : String → Bool

/-- First file found at path `p` (the visible content of the file), `none`
when no file exists at `p` (so `File::open` fails). -/
def fsRead : List (String × Option Json) → String → Option (Option Json)
  | [], _ => none
  | (q, v) :: rest, p => if q = p then some v else fsRead rest p

/-- Outcome of a repository call: `ok` and `err` are the two sides of the
Rust `Result`; `panic` is an `.expect` firing, which aborts the handling
path instead of returning. -/
inductive RepoResult (α : Type) where
  | ok (val : α) : RepoResult α
  | err (msg : String) : RepoResult α
  | panic (msg : String) : RepoResult α
deriving DecidableEq, Repr

/-- The file-backed repository: `repo::FileRepository`, holding the base
directory path. -/
structure FileRepository where
  path : String

/-- Translation of `Path::new(&self.path).join(format!("{}.json", name))`. -/
def pathJoin (base file : String) : String := base ++ "/" ++ file

/-- Storage path computed by `FileRepository::set` for a record: base
directory joined with the decimal content hash plus `.json`. -/
def FileRepository.setPath (repo : FileRepository) (c : Contact) : String :=
  pathJoin repo.path (decRepr (contactHash c) ++ ".json")

/-- Translation of `FileRepository::set`: hash the record, build the path,
`File::create` (an I/O failure there returns `Err` via `?`; success
truncates the file), then `serde_json::to_writer(f, &obj).expect(..)`
(a failure there panics, leaving the truncated file), then `Ok(obj)`. -/
def FileRepository.set (repo : FileRepository) (w : World) (obj : Contact) :
    RepoResult Contact × World :=
  let path := repo.setPath obj
  if w.createOk path then
    match serializeContact obj with
    | some doc =>
      if w.writeOk path then
        (RepoResult.ok obj, { w with files := (path, some doc) :: w.files })
      else
        (RepoResult.panic "Unable to serialized",
         { w with files := (path, none) :: w.files })
    | none =>
      (RepoResult.panic "Unable to serialized",
       { w with files := (path, none) :: w.files })
  else
    (RepoResult.err "No such file or directory (os error 2)", w)

/-- Translation of `FileRepository::get`: build the path from the supplied
id, `File::open` (failure when no file exists at the path returns `Err` via
`?`), read the content, `serde_json::from_str(..).expect(..)` (a failure
there panics), then `Ok(result)`. -/
def FileRepository.get (repo : FileRepository) (w : World) (id : String) :
    RepoResult Contact :=
  let path := pathJoin repo.path (id ++ ".json")
  match fsRead w.files path with
  | none => RepoResult.err "No such file or directory (os error 2)"
  | some content =>
    match decodeFile content with
    | none => RepoResult.panic "Unable to serialized"
    | some c => RepoResult.ok c

/-- Translation of `usecases::Contacts::create`: `let r = repo.set(contact)?`
(so an `Err` is propagated and a panic aborts), a diagnostic print, then
`Ok(r)`. -/
def Contacts.create (contact : Contact) (repo : FileRepository) (w : World) :
    RepoResult Contact × World :=
  match FileRepository.set repo w contact with
  | (RepoResult.ok r, w2) => (RepoResult.ok r, w2)
  | (RepoResult.err e, w2) => (RepoResult.err e, w2)
  | (RepoResult.panic m, w2) => (RepoResult.panic m, w2)

/-- Translation of `usecases::Contacts::get`: delegates to `repo.get(id)`. -/
def Contacts.get (id : String) (repo : FileRepository) (w : World) :
    RepoResult Contact :=
  FileRepository.get repo w id

/-- GraphQL mutation input payload `MutationCreate`. -/
structure MutationCreate where
  id : String
  first_name : String
  last_name : String
deriving DecidableEq, Repr

/-- Translation of `impl Into<Contact> for MutationCreate`. -/
def MutationCreate.intoContact (m : MutationCreate) : Contact :=
  ⟨m.id, m.first_name, m.last_name⟩

/-- GraphQL mutation output payload `QueryContact`: only `first_name` and
`last_name`; the type has no id field. -/
structure QueryContact where
  first_name : String
  last_name : String
deriving DecidableEq, Repr

/-- Translation of `impl From<Contact> for QueryContact`. -/
def QueryContact.fromContact (c : Contact) : QueryContact :=
  ⟨c.first_name, c.last_name⟩

/-- Outcome of a GraphQL field resolver: `ok` a payload, `fieldError` a
`FieldError(format!("{}", e), None)`, or a propagated panic. -/
inductive GqlResult (α : Type) where
  | ok (val : α) : GqlResult α
  | fieldError (msg : String) : GqlResult α
  | panic (msg : String) : GqlResult α
deriving DecidableEq, Repr

/-- Modelling of `format!("{}", e)` on the boxed error: the identity on the
message string the error carries. -/
def fmtError (e : String) : String := e

/-- Translation of `QueryRoot::get`: calls `Contacts::get` and maps `Err e`
to `FieldError(format!("{}", e), None)`. -/
def QueryRoot.get (repo : FileRepository) (w : World) (id : String) :
    GqlResult Contact :=
  match Contacts.get id repo w with
  | RepoResult.ok c => GqlResult.ok c
  | RepoResult.err e => GqlResult.fieldError (fmtError e)
  | RepoResult.panic m => GqlResult.panic m

/-- Translation of `MutationRoot::create`: converts the input payload to
the domain record, calls `Contacts::create`, and `map_or_else` turns `Err e`
into `FieldError(format!("{}", e), None)` and `Ok c` into
`QueryContact::from(c)`. -/
def MutationRoot.create (repo : FileRepository) (w : World)
    (contact : MutationCreate) : GqlResult QueryContact × World :=
  let model := contact.intoContact
  match Contacts.create model repo w with
  | (RepoResult.ok c, w2) => (GqlResult.ok (QueryContact.fromContact c), w2)
  | (RepoResult.err e, w2) => (GqlResult.fieldError (fmtError e), w2)
  | (RepoResult.panic m, w2) => (GqlResult.panic m, w2)

/-! ### Helper lemmas -/

/-- Value of a list of decimal digit characters, most significant first. -/
def decVal (cs : List Char) : Nat :=
  cs.foldl (fun a c => 10 * a + (c.toNat - 48)) 0

theorem decVal_append_digit (xs : List Char) (c : Char) :
    decVal (xs ++ [c]) = 10 * decVal xs + (c.toNat - 48) := by
  simp [decVal, List.foldl_append]

theorem digit_toNat : ∀ d, d < 10 → (Char.ofNat (48 + d)).toNat = 48 + d := by
  decide

theorem decVal_decDigitsAux (fuel : Nat) :
    ∀ n, n ≤ fuel → decVal (decDigitsAux fuel n) = n := by
  induction fuel with
  | zero =>
    intro n hn
    have : n = 0 := by omega
    simp [decDigitsAux, decVal, this]
  | succ fuel ih =>
    intro n hn
    by_cases h : n = 0
    · simp [decDigitsAux, h, decVal]
    · simp only [decDigitsAux, h, if_false, reduceIte]
      rw [decVal_append_digit, ih (n / 10) (by omega),
        digit_toNat (n % 10) (by omega)]
      omega

theorem decVal_decDigits (n : Nat) : decVal (decDigits n) = n :=
  decVal_decDigitsAux n n (Nat.le_refl n)

theorem decRepr_inj (a b : Nat) (h : decRepr a = decRepr b) : a = b := by
  unfold decRepr at h
  by_cases ha : a = 0 <;> by_cases hb : b = 0 <;>
    simp only [ha, hb, if_true, if_false, reduceIte] at h
  · omega
  · have hd := congrArg String.data h
    have hb2 : decVal (String.mk (decDigits b)).data = 0 := by
      rw [← hd]; rfl
    have := decVal_decDigits b
    simp only [String.data] at hb2
    omega
  · have hd := congrArg String.data h
    have ha2 : decVal (String.mk (decDigits a)).data = 0 := by
      rw [hd]; rfl
    have := decVal_decDigits a
    simp only [String.data] at ha2
    omega
  · have hd := congrArg String.data h
    simp only [String.data] at hd
    rw [← decVal_decDigits a, ← decVal_decDigits b, hd]

theorem setPath_inj (repo : FileRepository) (c1 c2 : Contact)
    (h : contactHash c1 ≠ contactHash c2) :
    repo.setPath c1 ≠ repo.setPath c2 := by
  intro heq
  apply h
  apply decRepr_inj
  have hd := congrArg String.data heq
  simp only [FileRepository.setPath, pathJoin, String.data_append] at hd
  have h2 := List.append_cancel_left hd
  have h3 := List.append_cancel_right h2
  exact congrArg String.mk h3

/-- Deserialising the serialised form of a record recovers the record. -/
theorem decode_serialize (c : Contact) :
    decodeFile (serializeContact c) = some c := rfl

/-- Reading through a duplicated head binding is the same as reading
through a single one. -/
theorem fsRead_dup (k : String) (v : Option Json)
    (rest : List (String × Option Json)) (p : String) :
    fsRead ((k, v) :: (k, v) :: rest) p = fsRead ((k, v) :: rest) p := by
  by_cases hk : k = p <;> simp [fsRead, hk]

/-- A successful `FileRepository::set` returns exactly its argument. -/
theorem set_fst_ok (repo : FileRepository) (w : World) (c : Contact)
    (r : Contact) (h : (FileRepository.set repo w c).1 = RepoResult.ok r) :
    r = c := by
  by_cases hc : w.createOk (repo.setPath c)
  · by_cases hw : w.writeOk (repo.setPath c)
    · simp [FileRepository.set, serializeContact, hc, hw] at h
      exact h.symm
    · simp [FileRepository.set, serializeContact, hc, hw] at h
  · simp [FileRepository.set, hc] at h

/-- `Contacts::create` is extensionally `repo.set`. -/
theorem create_eq_set (c : Contact) (repo : FileRepository) (w : World) :
    Contacts.create c repo w = FileRepository.set repo w c := by
  unfold Contacts.create
  rcases hs : FileRepository.set repo w c with ⟨r, w2⟩
  cases r <;> rfl

/-! ### Concrete fixtures for witnesses -/

/-- Repository rooted at `/tmp`, as built in `start_server`. -/
def repo0 : FileRepository := ⟨"/tmp"⟩

/-- Empty filesystem on which every create and write succeeds. -/
def w0 : World := ⟨[], fun _ => true, fun _ => true⟩

/-- Empty filesystem on which `File::create` fails everywhere. -/
def wNoCreate : World := ⟨[], fun _ => false, fun _ => true⟩

/-- Empty filesystem on which `serde_json::to_writer` fails everywhere. -/
def wNoWrite : World := ⟨[], fun _ => true, fun _ => false⟩

/-- Filesystem holding a JSON file at `/tmp/1.json` that is not a contact. -/
def wBadFile : World := ⟨[("/tmp/1.json", some Json.null)], fun _ => true, fun _ => true⟩

/-- The example record of the spec. -/
def ada : Contact := ⟨"1", "Ada", "Lovelace"⟩

/-- The example mutation input of the spec. -/
def adaInput : MutationCreate := ⟨"1", "Ada", "Lovelace"⟩

/-! ### Claim theorems -/

/-- Claim C1: for every contact record, calling `FileRepository::set(record)`
and then `FileRepository::get(id)` where `id` is the decimal string of the
record's content hash returns `Ok` of a record whose `id`, `first_name` and
`last_name` all equal those of the stored record (here: the record itself). -/
theorem claim1_set_get_roundtrip (repo : FileRepository) (w : World)
    (c : Contact) (hc : w.createOk (repo.setPath c) = true)
    (hw : w.writeOk (repo.setPath c) = true) :
    FileRepository.get repo (FileRepository.set repo w c).2
      (decRepr (contactHash c)) = RepoResult.ok c := by
  have hpath : pathJoin repo.path (decRepr (contactHash c) ++ ".json") =
      repo.setPath c := rfl
  simp only [FileRepository.set, serializeContact, hc, hw, if_true, reduceIte]
  simp only [FileRepository.get, hpath, fsRead, if_pos rfl]
  rfl

/-- Witness for C1 at the concrete Ada record on an empty filesystem. -/
theorem claim1_witness :
    (w0.createOk (repo0.setPath ada) = true ∧
     w0.writeOk (repo0.setPath ada) = true) ∧
    FileRepository.get repo0 (FileRepository.set repo0 w0 ada).2
      (decRepr (contactHash ada)) = RepoResult.ok ada :=
  ⟨⟨rfl, rfl⟩, claim1_set_get_roundtrip repo0 w0 ada rfl rfl⟩

/-- Claim C2, counterexample: for the input
`{id:"1", first_name:"Ada", last_name:"Lovelace"}` on an empty filesystem,
`create` succeeds with payload `{first_name:"Ada", last_name:"Lovelace"}`,
but the subsequent query `get("1")` does NOT succeed: the repository looks
for `/tmp/1.json` while the record was stored under its content hash, so
the query returns the I/O failure string. -/
theorem claim2_counterexample :
    (MutationRoot.create repo0 w0 adaInput).1 =
      GqlResult.ok ⟨"Ada", "Lovelace"⟩ ∧
    QueryRoot.get repo0 (MutationRoot.create repo0 w0 adaInput).2 "1" =
      GqlResult.fieldError "No such file or directory (os error 2)" :=
  ⟨rfl, rfl⟩

/-- Claim C2 as amended: the mutation response is
`{first_name:"Ada", last_name:"Lovelace"}`, and querying `get` with the
decimal string of the record's content hash (the addressing scheme this
revision actually uses) returns the full record with all three fields
equal to the input. -/
theorem claim2_amended_roundtrip :
    (MutationRoot.create repo0 w0 adaInput).1 =
      GqlResult.ok ⟨"Ada", "Lovelace"⟩ ∧
    QueryRoot.get repo0 (MutationRoot.create repo0 w0 adaInput).2
      (decRepr (contactHash adaInput.intoContact)) =
      GqlResult.ok ⟨"1", "Ada", "Lovelace"⟩ :=
  ⟨rfl, rfl⟩

/-- Claim C3: records equal in all three fields map to the same storage
path; records differing in any field map to different storage paths absent
a hash collision (i.e. when their content hashes differ). -/
theorem claim3_content_addressing (repo : FileRepository) (c1 c2 : Contact) :
    (c1 = c2 → repo.setPath c1 = repo.setPath c2) ∧
    (c1 ≠ c2 → contactHash c1 ≠ contactHash c2 →
      repo.setPath c1 ≠ repo.setPath c2) :=
  ⟨fun h => by rw [h], fun _ hh => setPath_inj repo c1 c2 hh⟩

/-- Witness for C3: the Ada record against itself and against a record
differing in the id field (their hashes are computed and differ). -/
theorem claim3_witness :
    (repo0.setPath ⟨"1", "Ada", "Lovelace"⟩ =
      repo0.setPath ⟨"1", "Ada", "Lovelace"⟩) ∧
    ((⟨"1", "Ada", "Lovelace"⟩ : Contact) ≠ ⟨"2", "Ada", "Lovelace"⟩ ∧
     contactHash ⟨"1", "Ada", "Lovelace"⟩ ≠
       contactHash ⟨"2", "Ada", "Lovelace"⟩ ∧
     repo0.setPath ⟨"1", "Ada", "Lovelace"⟩ ≠
       repo0.setPath ⟨"2", "Ada", "Lovelace"⟩) :=
  ⟨(claim3_content_addressing repo0 ⟨"1", "Ada", "Lovelace"⟩
      ⟨"1", "Ada", "Lovelace"⟩).1 rfl,
   by decide,
   by decide,
   (claim3_content_addressing repo0 ⟨"1", "Ada", "Lovelace"⟩
      ⟨"2", "Ada", "Lovelace"⟩).2 (by decide) (by decide)⟩

/-- Claim C4: for every id such that no file exists at `<base>/<id>.json`,
`FileRepository::get(id)` returns an error (never `Ok` with a default or
empty record). -/
theorem claim4_missing_file_err (repo : FileRepository) (w : World)
    (id : String)
    (h : fsRead w.files (pathJoin repo.path (id ++ ".json")) = none) :
    FileRepository.get repo w id =
      RepoResult.err "No such file or directory (os error 2)" := by
  simp only [FileRepository.get, h]

/-- Witness for C4: id `"1"` on an empty filesystem. -/
theorem claim4_witness :
    fsRead w0.files (pathJoin repo0.path ("1" ++ ".json")) = none ∧
    FileRepository.get repo0 w0 "1" =
      RepoResult.err "No such file or directory (os error 2)" :=
  ⟨rfl, claim4_missing_file_err repo0 w0 "1" rfl⟩

/-- Claim C5: calling `FileRepository::set(record)` twice in succession
gives the same call result and leaves the same file content at every path
as calling it once, and a subsequent get by the record's content-hash id
returns the same result in both cases. -/
theorem claim5_set_idempotent (repo : FileRepository) (w : World)
    (c : Contact) :
    (FileRepository.set repo (FileRepository.set repo w c).2 c).1 =
      (FileRepository.set repo w c).1 ∧
    (∀ p, fsRead (FileRepository.set repo
        (FileRepository.set repo w c).2 c).2.files p =
      fsRead (FileRepository.set repo w c).2.files p) ∧
    FileRepository.get repo
        (FileRepository.set repo (FileRepository.set repo w c).2 c).2
        (decRepr (contactHash c)) =
      FileRepository.get repo (FileRepository.set repo w c).2
        (decRepr (contactHash c)) := by
  by_cases hc : w.createOk (repo.setPath c) <;>
    by_cases hw : w.writeOk (repo.setPath c) <;>
    refine ⟨?_, fun p => ?_, ?_⟩ <;>
    simp [FileRepository.set, FileRepository.get, serializeContact,
      hc, hw, fsRead_dup]

/-- Claim C6: a `serde_json::to_writer` failure inside `set`, or a failed
deserialisation of existing file content inside `get`, does not produce an
`Err` return: it aborts the handling path with a panic (`.expect`), unlike
I/O failures, which are returned as errors. -/
theorem claim6_failure_panics :
    (∀ (repo : FileRepository) (w : World) (c : Contact),
      w.createOk (repo.setPath c) = true →
      w.writeOk (repo.setPath c) = false →
      (FileRepository.set repo w c).1 =
        RepoResult.panic "Unable to serialized") ∧
    (∀ (repo : FileRepository) (w : World) (id : String)
       (content : Option Json),
      fsRead w.files (pathJoin repo.path (id ++ ".json")) = some content →
      decodeFile content = none →
      FileRepository.get repo w id =
        RepoResult.panic "Unable to serialized") := by
  constructor
  · intro repo w c hc hw
    simp [FileRepository.set, serializeContact, hc, hw]
  · intro repo w id content hf hd
    simp [FileRepository.get, hf, hd]

/-- Witness for C6: a write failure while storing Ada, and a stored JSON
`null` document that does not deserialise as a contact. -/
theorem claim6_witness :
    (wNoWrite.createOk (repo0.setPath ada) = true ∧
     wNoWrite.writeOk (repo0.setPath ada) = false ∧
     (FileRepository.set repo0 wNoWrite ada).1 =
       RepoResult.panic "Unable to serialized") ∧
    (fsRead wBadFile.files (pathJoin repo0.path ("1" ++ ".json")) =
       some (some Json.null) ∧
     decodeFile (some Json.null) = none ∧
     FileRepository.get repo0 wBadFile "1" =
       RepoResult.panic "Unable to serialized") :=
  ⟨⟨rfl, rfl, claim6_failure_panics.1 repo0 wNoWrite ada rfl rfl⟩,
   ⟨rfl, rfl, claim6_failure_panics.2 repo0 wBadFile "1"
      (some Json.null) rfl rfl⟩⟩

/-- Claim C7: `Contacts::create(contact, repo)` returns exactly what
`repo.set(contact)` produced, in result and filesystem effect alike. -/
theorem claim7_create_delegates (c : Contact) (repo : FileRepository)
    (w : World) :
    Contacts.create c repo w = FileRepository.set repo w c :=
  create_eq_set c repo w

/-- Claim C8: every successful `create` mutation with input
`{id, first_name, last_name}` produces exactly the output payload
`{first_name, last_name}` copied from the input (the `QueryContact` type
carries no id field). -/
theorem claim8_mutation_payload (repo : FileRepository) (w : World)
    (input : MutationCreate) (q : QueryContact)
    (h : (MutationRoot.create repo w input).1 = GqlResult.ok q) :
    q = ⟨input.first_name, input.last_name⟩ := by
  have hcs := create_eq_set input.intoContact repo w
  simp only [MutationRoot.create, hcs] at h
  rcases hs : FileRepository.set repo w input.intoContact with ⟨r, w2⟩
  rw [hs] at h
  cases r with
  | ok c =>
    have hc : c = input.intoContact :=
      set_fst_ok repo w input.intoContact c (by rw [hs])
    simp at h
    rw [← h, hc]
    rfl
  | err e => simp at h
  | panic m => simp at h

/-- Witness for C8 at the concrete Ada input on an empty filesystem. -/
theorem claim8_witness :
    (MutationRoot.create repo0 w0 adaInput).1 =
      GqlResult.ok ⟨"Ada", "Lovelace"⟩ ∧
    (⟨"Ada", "Lovelace"⟩ : QueryContact) =
      ⟨adaInput.first_name, adaInput.last_name⟩ :=
  ⟨rfl, claim8_mutation_payload repo0 w0 adaInput ⟨"Ada", "Lovelace"⟩ rfl⟩

/-- Claim C9: an I/O failure returned by the repository surfaces at the API
layer, in both the `get` query and the `create` mutation, as a generic
failure string formatted from the error, never as a record payload. -/
theorem claim9_io_error_generic_string :
    (∀ (repo : FileRepository) (w : World) (id e : String),
      Contacts.get id repo w = RepoResult.err e →
      QueryRoot.get repo w id = GqlResult.fieldError (fmtError e)) ∧
    (∀ (repo : FileRepository) (w : World) (input : MutationCreate)
       (e : String),
      (Contacts.create input.intoContact repo w).1 = RepoResult.err e →
      (MutationRoot.create repo w input).1 =
        GqlResult.fieldError (fmtError e)) := by
  constructor
  · intro repo w id e h
    simp [QueryRoot.get, h]
  · intro repo w input e h
    rcases hs : Contacts.create input.intoContact repo w with ⟨r, w2⟩
    rw [hs] at h
    simp at h
    subst h
    simp [MutationRoot.create, hs]

/-- Witness for C9: a missing file on the query path and a failing
`File::create` on the mutation path. -/
theorem claim9_witness :
    (Contacts.get "1" repo0 w0 =
       RepoResult.err "No such file or directory (os error 2)" ∧
     QueryRoot.get repo0 w0 "1" =
       GqlResult.fieldError
         (fmtError "No such file or directory (os error 2)")) ∧
    ((Contacts.create adaInput.intoContact repo0 wNoCreate).1 =
       RepoResult.err "No such file or directory (os error 2)" ∧
     (MutationRoot.create repo0 wNoCreate adaInput).1 =
       GqlResult.fieldError
         (fmtError "No such file or directory (os error 2)")) :=
  ⟨⟨rfl, claim9_io_error_generic_string.1 repo0 w0 "1" _ rfl⟩,
   ⟨rfl, claim9_io_error_generic_string.2 repo0 wNoCreate adaInput _ rfl⟩⟩

/-- Claim C10: when `FileRepository::set` succeeds it returns the very
record it was given, unchanged in all fields, and consequently a
successful `Contacts::create` result always equals its input contact. -/
theorem claim10_set_returns_input :
    (∀ (repo : FileRepository) (w : World) (c r : Contact),
      (FileRepository.set repo w c).1 = RepoResult.ok r → r = c) ∧
    (∀ (repo : FileRepository) (w : World) (c r : Contact),
      (Contacts.create c repo w).1 = RepoResult.ok r → r = c) := by
  constructor
  · exact fun repo w c r h => set_fst_ok repo w c r h
  · intro repo w c r h
    rw [create_eq_set] at h
    exact set_fst_ok repo w c r h

/-- Witness for C10 at the concrete Ada record on an empty filesystem. -/
theorem claim10_witness :
    ((FileRepository.set repo0 w0 ada).1 = RepoResult.ok ada ∧ ada = ada) ∧
    ((Contacts.create ada repo0 w0).1 = RepoResult.ok ada ∧ ada = ada) :=
  ⟨⟨rfl, claim10_set_returns_input.1 repo0 w0 ada ada rfl⟩,
   ⟨rfl, claim10_set_returns_input.2 repo0 w0 ada ada rfl⟩⟩
